import Mathlib

/-!
Verification development for the VendasFacil sales-ledger application
(`vendas/models.py`, `vendas/views.py`).

The embedding below translates the installment-date calculator, the sale
total aggregation, the receivable/payable status deriver, the mark-paid /
mark-unpaid transitions and the sale-creation workflow (`venda_create`)
into pure Lean functions.  Money (Python `Decimal` / parsed floats) is
modelled as exact rationals (`Rat`); calendar dates as year/month/day
triples of naturals with the Gregorian leap-year rule, matching Python's
`datetime.date` arithmetic used by the source.
-/

namespace VendasFacil

/-- Calendar date, mirroring Python `datetime.date` fields. -/
structure Date where
  year : Nat
  month : Nat
  day : Nat
deriving DecidableEq

/-- Gregorian leap-year test, as implemented by Python's `calendar` module
used via `monthrange`. -/
def isLeapYear (y : Nat) : Bool :=
  (y % 4 == 0 && y % 100 != 0) || y % 400 == 0

/-- Number of days of month `m` of year `y` (`calendar.monthrange(y, m)[1]`). -/
def daysInMonth (y m : Nat) : Nat :=
  if m = 2 then (if isLeapYear y then 29 else 28)
  else if m = 4 ∨ m = 6 ∨ m = 9 ∨ m = 11 then 30
  else 31

/-- A structurally valid calendar date (what `datetime.date` can hold). -/
def Date.Valid (d : Date) : Prop :=
  1 ≤ d.month ∧ d.month ≤ 12 ∧ 1 ≤ d.day ∧ d.day ≤ daysInMonth d.year d.month

instance (d : Date) : Decidable d.Valid := by
  unfold Date.Valid; infer_instance

/-- Chronological strict order on dates (Python `date < date`). -/
def Date.before (a b : Date) : Prop :=
  a.year < b.year ∨
    (a.year = b.year ∧
      (a.month < b.month ∨ (a.month = b.month ∧ a.day < b.day)))

instance (a b : Date) : Decidable (a.before b) := by
  unfold Date.before; infer_instance

/-- One iteration budget per unit of the starting month count: the loop
body below subtracts 12 each pass, so `fuel = m` always suffices. -/
def normalizeMonthAux : Nat → Nat → Nat → Nat × Nat
  | 0, m, y => (m, y)
  | fuel + 1, m, y =>
      if 12 < m then normalizeMonthAux fuel (m - 12) (y + 1) else (m, y)

/-- The `while mes_vencimento > 12: mes_vencimento -= 12; ano_vencimento += 1`
loop of `venda_create`: normalizes a month count into a (month, year) pair. -/
def normalizeMonth (m y : Nat) : Nat × Nat :=
  normalizeMonthAux m m y

/-- Due date of installment `i` (0-indexed) for anchor date
`data_vencimento_obj`, as computed inside the `for i in range(parcelas)`
loop of `venda_create`: month = anchor month + i normalized, year rolled,
day kept if it exists in the target month (`date.replace` succeeds),
otherwise clamped to the last day of the target month (the `ValueError`
branch using `monthrange`). -/
def installmentDate (anchor : Date) (i : Nat) : Date :=
  let p := normalizeMonth (anchor.month + i) anchor.year
  if anchor.day ≤ daysInMonth p.2 p.1 then
    ⟨p.2, p.1, anchor.day⟩
  else
    ⟨p.2, p.1, daysInMonth p.2 p.1⟩

/-- The list of the `count` installment due dates generated by the loop of
`venda_create` (the spec's `compute_installment_dates`). -/
def computeInstallmentDates (anchor : Date) (count : Nat) : List Date :=
  (List.range count).map (installmentDate anchor)

/-- Account status enumeration (`STATUS_CHOICES`): pendente / vencido / pago. -/
inductive Status where
  | pendente
  | vencido
  | pago
deriving DecidableEq

/-- Accounts-receivable record (`AccountsReceivable`), restricted to the
fields the core logic reads or writes.  `observacoes` models the
`'Parcela {i} de {n}'` label as the pair (i, n); `none` is Python `None`. -/
structure AccountsReceivable where
  valor : Rat
  data_vencimento : Date
  data_pagamento : Option Date
  status : Status
  observacoes : Option (Nat × Nat)
deriving DecidableEq

/-- `AccountsReceivable.atualizar_status`, with the ambient
`timezone.now().date()` made an explicit `hoje` parameter. -/
def AccountsReceivable.atualizar_status (c : AccountsReceivable) (hoje : Date) :
    AccountsReceivable :=
  if c.status = .pago then c
  else if c.data_vencimento.before hoje then { c with status := .vencido }
  else { c with status := .pendente }

/-- Accounts-payable record (`AccountsPayable`), restricted to the fields
the core logic reads or writes. -/
structure AccountsPayable where
  valor : Rat
  data_vencimento : Date
  data_pagamento : Option Date
  status : Status
deriving DecidableEq

/-- `AccountsPayable.atualizar_status`, with the ambient
`timezone.now().date()` made an explicit `hoje` parameter. -/
def AccountsPayable.atualizar_status (c : AccountsPayable) (hoje : Date) :
    AccountsPayable :=
  if c.status = .pago then c
  else if c.data_vencimento.before hoje then { c with status := .vencido }
  else { c with status := .pendente }

/-- POST branch of the `conta_receber_marcar_pago` view: sets
`data_pagamento` to the submitted date and `status` to `'pago'`. -/
def conta_receber_marcar_pago (c : AccountsReceivable) (d : Date) :
    AccountsReceivable :=
  { c with data_pagamento := some d, status := .pago }

/-- The `conta_receber_marcar_nao_pago` view: clears `data_pagamento` and
resets `status` to `'pendente'`, unconditionally. -/
def conta_receber_marcar_nao_pago (c : AccountsReceivable) :
    AccountsReceivable :=
  { c with data_pagamento := none, status := .pendente }

/-- POST branch of the `conta_pagar_marcar_pago` view. -/
def conta_pagar_marcar_pago (c : AccountsPayable) (d : Date) :
    AccountsPayable :=
  { c with data_pagamento := some d, status := .pago }

/-- The `conta_pagar_marcar_nao_pago` view. -/
def conta_pagar_marcar_nao_pago (c : AccountsPayable) : AccountsPayable :=
  { c with data_pagamento := none, status := .pendente }

/-- Line item of a sale (`SaleItem`), restricted to the fields of the core
logic.  `produto` is the nullable foreign key (`on_delete=SET_NULL`),
by product id. -/
structure SaleItem where
  produto : Option Nat
  quantidade : Int
  preco_unitario : Rat
  subtotal : Rat
deriving DecidableEq

/-- A sale (`Sale`) together with its live `itens` relation; `valor_total`
is the stored (materialized) total column. -/
structure Sale where
  valor_total : Rat
  itens : List SaleItem
deriving DecidableEq

/-- `Sale.calcular_valor_total`: sums the `subtotal` of every item currently
attached to the sale and stores it as `valor_total` (the `self.save()`). -/
def Sale.calcular_valor_total (s : Sale) : Sale :=
  { s with valor_total := (s.itens.map SaleItem.subtotal).sum }

/-- `SaleItem.objects.create(...)` followed by the overridden
`SaleItem.save`: the subtotal is computed as `quantidade * preco_unitario`,
the item is persisted, then `venda.calcular_valor_total()` runs. -/
def saleItem_create (s : Sale) (produto : Option Nat) (q : Int) (p : Rat) :
    Sale :=
  Sale.calcular_valor_total
    { s with itens := s.itens ++ [⟨produto, q, p, (q : Rat) * p⟩] }

/-- Updating line item `i` of a sale and saving it: the overridden
`SaleItem.save` recomputes its subtotal and re-triggers
`venda.calcular_valor_total()`.  An out-of-range index means there is no
such persisted item, so nothing happens. -/
def saleItem_update (s : Sale) (i : Nat) (q : Int) (p : Rat) : Sale :=
  match s.itens[i]? with
  | none => s
  | some it =>
      Sale.calcular_valor_total
        { s with
            itens := s.itens.set i
              { it with
                  quantidade := q
                  preco_unitario := p
                  subtotal := (q : Rat) * p } }

/-- Deleting line item `i` of a sale.  Django model deletion runs no custom
hook here: `SaleItem` overrides only `save`, so no total recomputation
accompanies the removal. -/
def saleItem_delete (s : Sale) (i : Nat) : Sale :=
  { s with itens := s.itens.eraseIdx i }

/-- The invariant claimed of the materialized total: the stored
`valor_total` equals the sum of the subtotals of the attached items. -/
def SaleTotalInvariant (s : Sale) : Prop :=
  s.valor_total = (s.itens.map SaleItem.subtotal).sum

instance (s : Sale) : Decidable (SaleTotalInvariant s) := by
  unfold SaleTotalInvariant; infer_instance

/-- A product row (`Product`), restricted to the fields the workflow
queries: primary key and owner (`usuario`). -/
structure Product where
  id : Nat
  usuario : Nat
deriving DecidableEq

/-- One submitted line-item tuple after `zip(produtos_ids, quantidades,
precos)` and parsing: `none` stands for an empty field or a value whose
`int(...)` / `float(...)` parse raised `ValueError` (both paths `continue`
in the source). -/
structure RawItem where
  produto_id : Option Nat
  quantidade : Option Int
  preco : Option Rat
deriving DecidableEq

/-- The `zip` of the three posted lists `produto_id[]`, `quantidade[]`,
`preco[]`: truncates to the shortest list, like Python `zip`. -/
def zipTuples :
    List (Option Nat) → List (Option Int) → List (Option Rat) → List RawItem
  | pid :: ps, q :: qs, p :: rs => ⟨pid, q, p⟩ :: zipTuples ps qs rs
  | _, _, _ => []

/-- Body of the item loop of `venda_create` for one tuple: skip when a
field is empty/unparseable, when `Product.objects.get(id=..., usuario=...)`
raises `DoesNotExist`, when `quantidade <= 0`, or when `preco < 0`;
otherwise yield the data of the `SaleItem` to create. -/
def validItem (store : List Product) (owner : Nat) (it : RawItem) :
    Option (Nat × Int × Rat) :=
  match it.produto_id, it.quantidade, it.preco with
  | some pid, some q, some p =>
      match store.find? (fun pr => pr.id == pid && pr.usuario == owner) with
      | none => none
      | some _ =>
          if q ≤ 0 then none
          else if p < 0 then none
          else some (pid, q, p)
  | _, _, _ => none

/-- The `int(parcelas) if parcelas else 1` conversion followed by
`if parcelas < 1: parcelas = 1` (`none` is an empty field). -/
def effectiveParcelas (raw : Option Int) : Nat :=
  match raw with
  | none => 1
  | some p => if p < 1 then 1 else p.toNat

/-- Failure outcome of the workflow; `emptySale` is the
`'Adicione pelo menos um produto à venda!'` error path that deletes the
just-created `Sale`. -/
inductive CreateError where
  | emptySale
deriving DecidableEq

/-- Net persisted outcome of one `venda_create` POST: the surviving `Sale`
row (with its items), the generated `AccountsReceivable` rows, and the
error, when any. -/
structure CreateResult where
  venda : Option Sale
  contas : List AccountsReceivable
  error : Option CreateError
deriving DecidableEq

/-- The `SaleItem` row that `SaleItem.objects.create` persists for a valid
tuple `(pid, quantidade, preco)`: the overridden `save` computes the
subtotal. -/
def mkSaleItem (v : Nat × Int × Rat) : SaleItem :=
  ⟨some v.1, v.2.1, v.2.2, (v.2.1 : Rat) * v.2.2⟩

/-- The sale produced by the item loop of `venda_create`: starting from the
shell created with `valor_total = 0`, each valid tuple is turned into a
`SaleItem` (each creation re-running `calcular_valor_total` via the
overridden `save`), and then `venda.calcular_valor_total()` is called once
more to finalize the total. -/
def createdSale (store : List Product) (owner : Nat)
    (tuples : List RawItem) : Sale :=
  Sale.calcular_valor_total
    ((tuples.filterMap (validItem store owner)).foldl
      (fun s v => saleItem_create s (some v.1) v.2.1 v.2.2)
      { valor_total := 0, itens := [] })

/-- The `AccountsReceivable.objects.create` loop of `venda_create`:
`parcelas` receivables, each of amount `valor_total / parcelas`
(`valor_parcela`), due on the successive installment dates, labeled
`Parcela i de n` only when `parcelas > 1`. -/
def generatedContas (sale : Sale) (anchor : Date) (parcelas : Nat) :
    List AccountsReceivable :=
  (List.range parcelas).map (fun i =>
    { valor := sale.valor_total / (parcelas : Rat)
      data_vencimento := installmentDate anchor i
      data_pagamento := none
      status := .pendente
      observacoes := if 1 < parcelas then some (i + 1, parcelas) else none })

/-- The core of the `venda_create` POST handler, after the client lookup
and the due-date parse succeeded.  The sale shell is created with
`valor_total = 0`; if the posted `produto_id[]` list is empty the sale is
deleted (`venda.delete()`) and the error is reported; otherwise the zipped
tuples are processed into line items, the total finalized, and the
receivables generated. -/
def venda_create (store : List Product) (owner : Nat) (anchor : Date)
    (parcelasRaw : Option Int) (produtos_ids : List (Option Nat))
    (quantidades : List (Option Int)) (precos : List (Option Rat)) :
    CreateResult :=
  if produtos_ids.isEmpty then
    { venda := none, contas := [], error := some .emptySale }
  else
    let sale :=
      createdSale store owner (zipTuples produtos_ids quantidades precos)
    { venda := some sale
      contas := generatedContas sale anchor (effectiveParcelas parcelasRaw)
      error := none }

/-!  Helper lemmas. -/

theorem daysInMonth_bounds (y m : Nat) :
    28 ≤ daysInMonth y m ∧ daysInMonth y m ≤ 31 := by
  unfold daysInMonth
  split
  · split <;> omega
  · split <;> omega

theorem normalizeMonthAux_spec (fuel : Nat) :
    ∀ m y : Nat, 1 ≤ m → m ≤ 12 * fuel + 12 →
      12 * (normalizeMonthAux fuel m y).2 + (normalizeMonthAux fuel m y).1 =
          12 * y + m ∧
        1 ≤ (normalizeMonthAux fuel m y).1 ∧
        (normalizeMonthAux fuel m y).1 ≤ 12 := by
  induction fuel with
  | zero =>
      intro m y h1 h2
      exact ⟨rfl, h1, show m ≤ 12 by omega⟩
  | succ n ih =>
      intro m y h1 h2
      simp only [normalizeMonthAux]
      split
      · rename_i hm
        have := ih (m - 12) (y + 1) (by omega) (by omega)
        omega
      · rename_i hm
        exact ⟨rfl, h1, show m ≤ 12 by omega⟩

theorem normalizeMonth_spec (m y : Nat) (h : 1 ≤ m) :
    12 * (normalizeMonth m y).2 + (normalizeMonth m y).1 = 12 * y + m ∧
      1 ≤ (normalizeMonth m y).1 ∧ (normalizeMonth m y).1 ≤ 12 := by
  exact normalizeMonthAux_spec m m y h (by omega)

theorem normalizeMonth_of_le (m y : Nat) (h1 : 1 ≤ m) (h2 : m ≤ 12) :
    normalizeMonth m y = (m, y) := by
  cases m with
  | zero => omega
  | succ n =>
      simp only [normalizeMonth, normalizeMonthAux]
      rw [if_neg (by omega)]

theorem installmentDate_zero (anchor : Date) (hv : anchor.Valid) :
    installmentDate anchor 0 = anchor := by
  obtain ⟨h1, h2, h3, h4⟩ := hv
  simp only [installmentDate, Nat.add_zero,
    normalizeMonth_of_le anchor.month anchor.year h1 h2]
  rw [if_pos h4]

theorem computeInstallmentDates_length (anchor : Date) (count : Nat) :
    (computeInstallmentDates anchor count).length = count := by
  simp [computeInstallmentDates]

theorem computeInstallmentDates_getElem (anchor : Date) (count i : Nat)
    (h : i < count) :
    (computeInstallmentDates anchor count)[i]? =
      some (installmentDate anchor i) := by
  simp [computeInstallmentDates, List.getElem?_map, List.getElem?_range, h]

theorem foldl_saleItem_create_itens
    (l : List (Nat × Int × Rat)) :
    ∀ s : Sale,
      (l.foldl (fun s v => saleItem_create s (some v.1) v.2.1 v.2.2) s).itens
        = s.itens ++ l.map mkSaleItem := by
  induction l with
  | nil => intro s; simp
  | cons v t ih =>
      intro s
      rw [List.foldl_cons, ih]
      simp [saleItem_create, Sale.calcular_valor_total, mkSaleItem]

theorem createdSale_itens (store : List Product) (owner : Nat)
    (tuples : List RawItem) :
    (createdSale store owner tuples).itens =
      (tuples.filterMap (validItem store owner)).map mkSaleItem := by
  simp only [createdSale, Sale.calcular_valor_total,
    foldl_saleItem_create_itens]
  simp

theorem createdSale_invariant (store : List Product) (owner : Nat)
    (tuples : List RawItem) :
    SaleTotalInvariant (createdSale store owner tuples) := by
  simp [createdSale, Sale.calcular_valor_total, SaleTotalInvariant]

theorem venda_create_ne_nil (store : List Product) (owner : Nat)
    (anchor : Date) (parcelasRaw : Option Int)
    (produtos_ids : List (Option Nat)) (quantidades : List (Option Int))
    (precos : List (Option Rat)) (h : produtos_ids ≠ []) :
    venda_create store owner anchor parcelasRaw produtos_ids quantidades
        precos =
      { venda :=
          some (createdSale store owner
            (zipTuples produtos_ids quantidades precos))
        contas :=
          generatedContas
            (createdSale store owner
              (zipTuples produtos_ids quantidades precos))
            anchor (effectiveParcelas parcelasRaw)
        error := none } := by
  rw [venda_create, if_neg (by simpa using h)]

theorem createdSale_all_invalid (store : List Product) (owner : Nat)
    (tuples : List RawItem)
    (h : ∀ it ∈ tuples, validItem store owner it = none) :
    createdSale store owner tuples = { valor_total := 0, itens := [] } := by
  have he : tuples.filterMap (validItem store owner) = [] :=
    List.filterMap_eq_nil_iff.mpr h
  simp [createdSale, he, Sale.calcular_valor_total]

theorem generatedContas_valor (sale : Sale) (anchor : Date) (parcelas : Nat)
    (c : AccountsReceivable) (hc : c ∈ generatedContas sale anchor parcelas) :
    c.valor = sale.valor_total / (parcelas : Rat) := by
  simp only [generatedContas, List.mem_map] at hc
  obtain ⟨i, _, rfl⟩ := hc
  rfl

theorem installmentDate_spec (anchor : Date) (hv : anchor.Valid) (i : Nat) :
    12 * (installmentDate anchor i).year + (installmentDate anchor i).month =
        12 * anchor.year + anchor.month + i ∧
      1 ≤ (installmentDate anchor i).month ∧
      (installmentDate anchor i).month ≤ 12 ∧
      (installmentDate anchor i).day =
        (if anchor.day ≤
            daysInMonth (installmentDate anchor i).year
              (installmentDate anchor i).month
         then anchor.day
         else daysInMonth (installmentDate anchor i).year
            (installmentDate anchor i).month) := by
  obtain ⟨hm1, _, _, _⟩ := hv
  have hs := normalizeMonth_spec (anchor.month + i) anchor.year (by omega)
  simp only [installmentDate]
  split
  · rename_i hle
    dsimp only
    exact ⟨by omega, hs.2.1, hs.2.2, rfl⟩
  · rename_i hle
    dsimp only
    exact ⟨by omega, hs.2.1, hs.2.2, rfl⟩

/-- C3: whenever the target month of installment `i` has fewer days than
the anchor's day-of-month, the generated installment date is the last day
of the target month; the date list is total (never raises) and has an
entry for every installment index (never skips).  In particular
`compute_installment_dates(2024-01-31, 3)` is
`[2024-01-31, 2024-02-29, 2024-03-31]`. -/
theorem installmentDates_clamp_to_month_end (anchor : Date) (i count : Nat)
    (hic : i < count)
    (hclamp : daysInMonth (normalizeMonth (anchor.month + i) anchor.year).2
        (normalizeMonth (anchor.month + i) anchor.year).1 < anchor.day) :
    (computeInstallmentDates anchor count).length = count ∧
      (computeInstallmentDates anchor count)[i]? =
        some ⟨(normalizeMonth (anchor.month + i) anchor.year).2,
          (normalizeMonth (anchor.month + i) anchor.year).1,
          daysInMonth (normalizeMonth (anchor.month + i) anchor.year).2
            (normalizeMonth (anchor.month + i) anchor.year).1⟩ ∧
      computeInstallmentDates ⟨2024, 1, 31⟩ 3 =
        [⟨2024, 1, 31⟩, ⟨2024, 2, 29⟩, ⟨2024, 3, 31⟩] := by
  refine ⟨computeInstallmentDates_length anchor count, ?_, by decide⟩
  rw [computeInstallmentDates_getElem anchor count i hic]
  simp only [installmentDate]
  rw [if_neg (by omega)]

theorem installmentDates_clamp_to_month_end_witness :
    (computeInstallmentDates ⟨2024, 1, 31⟩ 3).length = 3 ∧
      (computeInstallmentDates ⟨2024, 1, 31⟩ 3)[1]? = some ⟨2024, 2, 29⟩ ∧
      computeInstallmentDates ⟨2024, 1, 31⟩ 3 =
        [⟨2024, 1, 31⟩, ⟨2024, 2, 29⟩, ⟨2024, 3, 31⟩] := by
  have h := installmentDates_clamp_to_month_end ⟨2024, 1, 31⟩ 1 3
    (by decide) (by decide)
  exact ⟨h.1, by rw [h.2.1]; decide, h.2.2⟩

/-- C4 counterexample: for anchor 2024-01-31 the second installment does
not fall on the anchor's day-of-month (it is clamped to February 29), so
the claim's unconditional day-of-month rule fails at this input. -/
theorem computeInstallmentDates_day_mismatch :
    ((computeInstallmentDates ⟨2024, 1, 31⟩ 2).getD 1 ⟨0, 0, 0⟩).day ≠
      (⟨2024, 1, 31⟩ : Date).day := by
  decide

/-- C4 (amended): for a valid anchor date, the computed list has exactly
`count` dates; installment `i` falls in calendar month `anchor.month + i`
with the year rolled forward (stated via the linear month index), on the
anchor's day-of-month when that day exists in the target month and
otherwise on the last day of the target month; the sequence is strictly
increasing; and `compute_installment_dates(2024-11-30, 3)` is
`[2024-11-30, 2024-12-30, 2025-01-30]`. -/
theorem computeInstallmentDates_shape (anchor : Date) (count : Nat)
    (hv : anchor.Valid) :
    (computeInstallmentDates anchor count).length = count ∧
      (∀ i, i < count →
        (computeInstallmentDates anchor count)[i]? =
            some (installmentDate anchor i) ∧
          12 * (installmentDate anchor i).year +
              (installmentDate anchor i).month =
            12 * anchor.year + anchor.month + i ∧
          1 ≤ (installmentDate anchor i).month ∧
          (installmentDate anchor i).month ≤ 12 ∧
          (installmentDate anchor i).day =
            (if anchor.day ≤
                daysInMonth (installmentDate anchor i).year
                  (installmentDate anchor i).month
             then anchor.day
             else daysInMonth (installmentDate anchor i).year
                (installmentDate anchor i).month)) ∧
      (∀ i j, i < j → j < count →
        (installmentDate anchor i).before (installmentDate anchor j)) ∧
      computeInstallmentDates ⟨2024, 11, 30⟩ 3 =
        [⟨2024, 11, 30⟩, ⟨2024, 12, 30⟩, ⟨2025, 1, 30⟩] := by
  refine ⟨computeInstallmentDates_length anchor count, ?_, ?_, by decide⟩
  · intro i hi
    exact ⟨computeInstallmentDates_getElem anchor count i hi,
      installmentDate_spec anchor hv i⟩
  · intro i j hij _
    have hsi := installmentDate_spec anchor hv i
    have hsj := installmentDate_spec anchor hv j
    unfold Date.before
    omega

theorem computeInstallmentDates_shape_witness :
    (computeInstallmentDates ⟨2024, 11, 30⟩ 3).length = 3 ∧
      (installmentDate ⟨2024, 11, 30⟩ 0).before
        (installmentDate ⟨2024, 11, 30⟩ 2) ∧
      computeInstallmentDates ⟨2024, 11, 30⟩ 3 =
        [⟨2024, 11, 30⟩, ⟨2024, 12, 30⟩, ⟨2025, 1, 30⟩] := by
  have h := computeInstallmentDates_shape ⟨2024, 11, 30⟩ 3 (by decide)
  exact ⟨h.1, h.2.2.1 0 2 (by decide) (by decide), h.2.2.2⟩

/-- C5: the status deriver is a no-op on records already marked `pago`,
for both receivable and payable accounts, regardless of `hoje`. -/
theorem atualizar_status_pago_sticky (cr : AccountsReceivable)
    (cp : AccountsPayable) (hoje : Date)
    (h1 : cr.status = .pago) (h2 : cp.status = .pago) :
    cr.atualizar_status hoje = cr ∧ cp.atualizar_status hoje = cp := by
  constructor
  · simp [AccountsReceivable.atualizar_status, h1]
  · simp [AccountsPayable.atualizar_status, h2]

theorem atualizar_status_pago_sticky_witness :
    AccountsReceivable.atualizar_status
        ⟨100, ⟨2020, 1, 1⟩, some ⟨2020, 1, 2⟩, .pago, none⟩ ⟨2030, 6, 15⟩ =
      ⟨100, ⟨2020, 1, 1⟩, some ⟨2020, 1, 2⟩, .pago, none⟩ ∧
    AccountsPayable.atualizar_status
        ⟨50, ⟨2020, 1, 1⟩, some ⟨2020, 1, 2⟩, .pago⟩ ⟨2030, 6, 15⟩ =
      ⟨50, ⟨2020, 1, 1⟩, some ⟨2020, 1, 2⟩, .pago⟩ :=
  atualizar_status_pago_sticky _ _ _ rfl rfl

/-- C6: on a non-`pago` record the deriver yields `vencido` exactly when
the due date is strictly before `hoje` and `pendente` otherwise; at the
boundary, a pending record due today stays `pendente`, and one due
yesterday becomes `vencido`. -/
theorem atualizar_status_nonpago_derivation (cr : AccountsReceivable)
    (cp : AccountsPayable) (hoje : Date)
    (h1 : cr.status ≠ .pago) (h2 : cp.status ≠ .pago) :
    (cr.atualizar_status hoje).status =
        (if cr.data_vencimento.before hoje then .vencido else .pendente) ∧
      (cp.atualizar_status hoje).status =
        (if cp.data_vencimento.before hoje then .vencido else .pendente) ∧
      (AccountsReceivable.atualizar_status
          ⟨100, ⟨2024, 5, 15⟩, none, .pendente, none⟩ ⟨2024, 5, 15⟩).status =
        .pendente ∧
      (AccountsReceivable.atualizar_status
          ⟨100, ⟨2024, 5, 14⟩, none, .pendente, none⟩ ⟨2024, 5, 15⟩).status =
        .vencido := by
  refine ⟨?_, ?_, ?_, ?_⟩
  · rw [AccountsReceivable.atualizar_status, if_neg h1]
    by_cases hb : cr.data_vencimento.before hoje <;> simp [hb]
  · rw [AccountsPayable.atualizar_status, if_neg h2]
    by_cases hb : cp.data_vencimento.before hoje <;> simp [hb]
  · rw [AccountsReceivable.atualizar_status,
      if_neg (by decide : ¬ (Status.pendente = .pago)),
      if_neg (by decide : ¬ Date.before ⟨2024, 5, 15⟩ ⟨2024, 5, 15⟩)]
  · rw [AccountsReceivable.atualizar_status,
      if_neg (by decide : ¬ (Status.pendente = .pago)),
      if_pos (by decide : Date.before ⟨2024, 5, 14⟩ ⟨2024, 5, 15⟩)]

theorem atualizar_status_nonpago_derivation_witness :
    (AccountsReceivable.atualizar_status
        ⟨100, ⟨2024, 5, 15⟩, none, .pendente, none⟩ ⟨2024, 5, 15⟩).status =
      .pendente ∧
    (AccountsReceivable.atualizar_status
        ⟨100, ⟨2024, 5, 14⟩, none, .pendente, none⟩ ⟨2024, 5, 15⟩).status =
      .vencido :=
  ⟨(atualizar_status_nonpago_derivation
      ⟨100, ⟨2024, 5, 15⟩, none, .pendente, none⟩
      ⟨50, ⟨2024, 5, 15⟩, none, .pendente⟩ ⟨2024, 5, 15⟩
      (by decide) (by decide)).2.2.1,
   (atualizar_status_nonpago_derivation
      ⟨100, ⟨2024, 5, 15⟩, none, .pendente, none⟩
      ⟨50, ⟨2024, 5, 15⟩, none, .pendente⟩ ⟨2024, 5, 15⟩
      (by decide) (by decide)).2.2.2⟩

/-- C9: `mark_paid` sets status `pago` and the paid date; `mark_unpaid`
clears the paid date and resets status to `pendente` unconditionally,
even when the due date is already past — for receivables and payables. -/
theorem marcar_pago_nao_pago_transitions (cr : AccountsReceivable)
    (cp : AccountsPayable) (d : Date) :
    (conta_receber_marcar_pago cr d).status = .pago ∧
      (conta_receber_marcar_pago cr d).data_pagamento = some d ∧
      conta_receber_marcar_nao_pago cr =
        { cr with data_pagamento := none, status := .pendente } ∧
      (∀ hoje : Date, cr.data_vencimento.before hoje →
        (conta_receber_marcar_nao_pago cr).status = .pendente) ∧
      (conta_pagar_marcar_pago cp d).status = .pago ∧
      (conta_pagar_marcar_pago cp d).data_pagamento = some d ∧
      conta_pagar_marcar_nao_pago cp =
        { cp with data_pagamento := none, status := .pendente } ∧
      (∀ hoje : Date, cp.data_vencimento.before hoje →
        (conta_pagar_marcar_nao_pago cp).status = .pendente) :=
  ⟨rfl, rfl, rfl, fun _ _ => rfl, rfl, rfl, rfl, fun _ _ => rfl⟩

theorem marcar_pago_nao_pago_transitions_witness :
    (conta_receber_marcar_pago ⟨100, ⟨2020, 1, 1⟩, none, .vencido, none⟩
        ⟨2024, 2, 2⟩).status = .pago ∧
    (conta_receber_marcar_nao_pago
        ⟨100, ⟨2020, 1, 1⟩, some ⟨2024, 2, 2⟩, .pago, none⟩).status =
      .pendente ∧
    (conta_pagar_marcar_nao_pago
        ⟨50, ⟨2020, 1, 1⟩, some ⟨2024, 2, 2⟩, .pago⟩).status = .pendente := by
  have h := marcar_pago_nao_pago_transitions
    ⟨100, ⟨2020, 1, 1⟩, some ⟨2024, 2, 2⟩, .pago, none⟩
    ⟨50, ⟨2020, 1, 1⟩, some ⟨2024, 2, 2⟩, .pago⟩ ⟨2024, 2, 2⟩
  have h' := marcar_pago_nao_pago_transitions
    ⟨100, ⟨2020, 1, 1⟩, none, .vencido, none⟩
    ⟨50, ⟨2020, 1, 1⟩, some ⟨2024, 2, 2⟩, .pago⟩ ⟨2024, 2, 2⟩
  exact ⟨h'.1, h.2.2.2.1 ⟨2024, 5, 5⟩ (by decide),
    h.2.2.2.2.2.2.2 ⟨2024, 5, 5⟩ (by decide)⟩

/-- Spec-side validity of a submitted tuple: the product field references
an existing product of the requesting owner, the quantity parses to an
integer greater than 0, and the unit price parses to a number greater than
or equal to 0. -/
def TupleValid (store : List Product) (owner : Nat) (it : RawItem) : Prop :=
  ∃ pid q p, it.produto_id = some pid ∧ it.quantidade = some q ∧
    it.preco = some p ∧
    (∃ pr ∈ store, pr.id = pid ∧ pr.usuario = owner) ∧ 0 < q ∧ 0 ≤ p

theorem validItem_isSome_iff (store : List Product) (owner : Nat)
    (it : RawItem) :
    (validItem store owner it).isSome ↔ TupleValid store owner it := by
  obtain ⟨pido, qo, po⟩ := it
  cases pido with
  | none => simp [validItem, TupleValid]
  | some pid =>
    cases qo with
    | none => simp [validItem, TupleValid]
    | some q =>
      cases po with
      | none => simp [validItem, TupleValid]
      | some p =>
        simp only [validItem, TupleValid]
        cases hfind :
            store.find? (fun pr => pr.id == pid && pr.usuario == owner) with
        | none =>
            have hno := List.find?_eq_none.mp hfind
            simp only [Option.isSome_none, Bool.false_eq_true, false_iff]
            rintro ⟨pid', q', p', hp1, hq1, hr1, ⟨pr, hmem, hid, hus⟩, _, _⟩
            cases hp1
            exact absurd (by simp [hid, hus]) (hno pr hmem)
        | some pr =>
            have hmem := List.mem_of_find?_eq_some hfind
            have hpr : pr.id = pid ∧ pr.usuario = owner := by
              have := List.find?_some hfind
              simpa using this
            constructor
            · intro hsome
              by_cases hq : q ≤ 0
              · simp [hq] at hsome
              · by_cases hp : p < 0
                · simp [hq, hp] at hsome
                · exact ⟨pid, q, p, rfl, rfl, rfl,
                    ⟨pr, hmem, hpr.1, hpr.2⟩, by omega, by
                      simpa using not_lt.mp hp⟩
            · rintro ⟨pid', q', p', hp1, hq1, hr1, _, hqpos, hppos⟩
              cases hp1; cases hq1; cases hr1
              rw [if_neg (by omega), if_neg (by simpa using not_lt.mpr hppos)]
              rfl

/-- C1 counterexample: a submitted list with one tuple, invalid because
its quantity is 0, does not trigger the rollback: the workflow reports no
error, the Sale persists with total 0 and no items, and one zero-amount
receivable is created. -/
theorem venda_create_all_invalid_sale_persists :
    (venda_create [⟨1, 7⟩] 7 ⟨2024, 5, 10⟩ (some 1) [some 1] [some 0]
        [some 10]).error = none ∧
      (venda_create [⟨1, 7⟩] 7 ⟨2024, 5, 10⟩ (some 1) [some 1] [some 0]
          [some 10]).venda = some { valor_total := 0, itens := [] } ∧
      (venda_create [⟨1, 7⟩] 7 ⟨2024, 5, 10⟩ (some 1) [some 1] [some 0]
          [some 10]).contas =
        [⟨0, ⟨2024, 5, 10⟩, none, .pendente, none⟩] := by
  refine ⟨by simp [venda_create], ?_, ?_⟩
  · simp [venda_create, createdSale, zipTuples, validItem, List.find?,
      Sale.calcular_valor_total]
  · simp [venda_create, createdSale, generatedContas, zipTuples, validItem,
      List.find?, Sale.calcular_valor_total, effectiveParcelas,
      installmentDate, normalizeMonth, normalizeMonthAux, daysInMonth,
      List.range_succ]

/-- C1 (amended): the rollback (`venda.delete()`) and the empty-sale error
occur exactly when the submitted `produto_id[]` list is empty; when the
list is non-empty but every zipped tuple is invalid, no error is raised:
the Sale persists with total 0 and no items, and `parcelas` receivables
of amount 0 are created. -/
theorem venda_create_all_invalid_no_rollback (store : List Product)
    (owner : Nat) (anchor : Date) (parcelasRaw : Option Int)
    (produtos_ids : List (Option Nat)) (quantidades : List (Option Int))
    (precos : List (Option Rat)) (hne : produtos_ids ≠ [])
    (hinv : ∀ it ∈ zipTuples produtos_ids quantidades precos,
      validItem store owner it = none) :
    (venda_create store owner anchor parcelasRaw produtos_ids quantidades
        precos).error = none ∧
      (venda_create store owner anchor parcelasRaw produtos_ids quantidades
          precos).venda = some { valor_total := 0, itens := [] } ∧
      (venda_create store owner anchor parcelasRaw produtos_ids quantidades
          precos).contas.length = effectiveParcelas parcelasRaw ∧
      (∀ c ∈ (venda_create store owner anchor parcelasRaw produtos_ids
          quantidades precos).contas, c.valor = 0) ∧
      venda_create store owner anchor parcelasRaw [] quantidades precos =
        { venda := none, contas := [], error := some .emptySale } := by
  rw [venda_create_ne_nil store owner anchor parcelasRaw produtos_ids
    quantidades precos hne,
    createdSale_all_invalid store owner _ hinv]
  refine ⟨rfl, rfl, by simp [generatedContas], ?_, rfl⟩
  intro c hc
  have h := generatedContas_valor _ _ _ c hc
  simpa using h

theorem venda_create_all_invalid_no_rollback_witness :
    (venda_create [⟨1, 7⟩] 7 ⟨2024, 5, 10⟩ (some 3) [some 1] [some 0]
        [some 10]).error = none ∧
      (venda_create [⟨1, 7⟩] 7 ⟨2024, 5, 10⟩ (some 3) [some 1] [some 0]
          [some 10]).venda = some { valor_total := 0, itens := [] } ∧
      (venda_create [⟨1, 7⟩] 7 ⟨2024, 5, 10⟩ (some 3) [some 1] [some 0]
          [some 10]).contas.length = effectiveParcelas (some 3) ∧
      (∀ c ∈ (venda_create [⟨1, 7⟩] 7 ⟨2024, 5, 10⟩ (some 3) [some 1]
          [some 0] [some 10]).contas, c.valor = 0) ∧
      venda_create [⟨1, 7⟩] 7 ⟨2024, 5, 10⟩ (some 3) [] [some 0] [some 10] =
        { venda := none, contas := [], error := some .emptySale } :=
  venda_create_all_invalid_no_rollback [⟨1, 7⟩] 7 ⟨2024, 5, 10⟩ (some 3)
    [some 1] [some 0] [some 10] (by decide)
    (by
      intro it hmem
      simp only [zipTuples, List.mem_singleton] at hmem
      subst hmem
      simp [validItem, List.find?])

/-- C2 counterexample: deleting the only line item of a sale leaves the
stored total at its previous value, violating the materialized-total
invariant (removals trigger no recomputation). -/
theorem sale_total_invariant_delete_violation :
    ¬ SaleTotalInvariant
        (saleItem_delete (saleItem_create ⟨0, []⟩ (some 1) 1 10) 0) := by
  simp [saleItem_create, saleItem_delete, Sale.calcular_valor_total,
    SaleTotalInvariant]

/-- C2 (amended): the invariant `valor_total = Σ subtotals` holds after
every `SaleItem.save` — i.e. after each line-item creation and each
line-item update — because `save` re-runs `calcular_valor_total`; removal
of a line item, however, triggers no recomputation (the stored total is
left untouched), so the invariant is not re-established on removal. -/
theorem sale_total_invariant_after_save (s : Sale) (produto : Option Nat)
    (q : Int) (p : Rat) (i : Nat) (hi : i < s.itens.length) :
    SaleTotalInvariant (saleItem_create s produto q p) ∧
      SaleTotalInvariant (saleItem_update s i q p) ∧
      (saleItem_delete s i).valor_total = s.valor_total := by
  refine ⟨?_, ?_, rfl⟩
  · simp [saleItem_create, Sale.calcular_valor_total, SaleTotalInvariant]
  · rw [saleItem_update, List.getElem?_eq_getElem hi]
    simp [Sale.calcular_valor_total, SaleTotalInvariant]

theorem sale_total_invariant_after_save_witness :
    0 < (Sale.itens ⟨10, [⟨some 1, 1, 10, 10⟩]⟩).length ∧
      SaleTotalInvariant
        (saleItem_create ⟨10, [⟨some 1, 1, 10, 10⟩]⟩ (some 2) 2 5) ∧
      SaleTotalInvariant
        (saleItem_update ⟨10, [⟨some 1, 1, 10, 10⟩]⟩ 0 2 5) ∧
      (saleItem_delete ⟨10, [⟨some 1, 1, 10, 10⟩]⟩ 0).valor_total =
        (Sale.valor_total ⟨10, [⟨some 1, 1, 10, 10⟩]⟩) :=
  ⟨by decide,
    sale_total_invariant_after_save ⟨10, [⟨some 1, 1, 10, 10⟩]⟩ (some 2) 2 5 0
      (by decide)⟩

/-- C7: every generated receivable of a successful `venda_create` carries
`valor_total / parcelas` — simple even division, with no remainder
redistribution; concretely, two line items (2 × 10.00 and 1 × 5.00) with
installment count 2 yield a sale of total 25.00 and exactly two
receivables of 12.50 each, due one calendar month apart (2024-03-10 and
2024-04-10). -/
theorem venda_create_even_division (store : List Product) (owner : Nat)
    (anchor : Date) (parcelasRaw : Option Int)
    (produtos_ids : List (Option Nat)) (quantidades : List (Option Int))
    (precos : List (Option Rat)) (v : Sale) (hne : produtos_ids ≠ [])
    (hv : (venda_create store owner anchor parcelasRaw produtos_ids
      quantidades precos).venda = some v) :
    (∀ c ∈ (venda_create store owner anchor parcelasRaw produtos_ids
        quantidades precos).contas,
      c.valor = v.valor_total / (effectiveParcelas parcelasRaw : Rat)) ∧
      (venda_create [⟨1, 7⟩, ⟨2, 7⟩] 7 ⟨2024, 3, 10⟩ (some 2)
          [some 1, some 2] [some 2, some 1] [some 10, some 5]).venda =
        some ⟨25, [⟨some 1, 2, 10, 20⟩, ⟨some 2, 1, 5, 5⟩]⟩ ∧
      (venda_create [⟨1, 7⟩, ⟨2, 7⟩] 7 ⟨2024, 3, 10⟩ (some 2)
          [some 1, some 2] [some 2, some 1] [some 10, some 5]).contas =
        [⟨12.5, ⟨2024, 3, 10⟩, none, .pendente, some (1, 2)⟩,
         ⟨12.5, ⟨2024, 4, 10⟩, none, .pendente, some (2, 2)⟩] := by
  refine ⟨?_, ?_, ?_⟩
  · rw [venda_create_ne_nil store owner anchor parcelasRaw produtos_ids
      quantidades precos hne] at hv ⊢
    simp only [Option.some.injEq] at hv
    subst hv
    intro c hc
    exact generatedContas_valor _ _ _ c hc
  · simp [venda_create, createdSale, zipTuples, validItem, List.find?,
      saleItem_create, Sale.calcular_valor_total]
    norm_num
  · simp [venda_create, createdSale, generatedContas, zipTuples, validItem,
      List.find?, saleItem_create, Sale.calcular_valor_total,
      effectiveParcelas, installmentDate, normalizeMonth, normalizeMonthAux,
      daysInMonth, List.range_succ]
    norm_num

theorem venda_create_even_division_witness :
    (∀ c ∈ (venda_create [⟨1, 7⟩, ⟨2, 7⟩] 7 ⟨2024, 3, 10⟩ (some 2)
        [some 1, some 2] [some 2, some 1] [some 10, some 5]).contas,
      c.valor =
        (Sale.valor_total ⟨25, [⟨some 1, 2, 10, 20⟩, ⟨some 2, 1, 5, 5⟩]⟩) /
          (effectiveParcelas (some 2) : Rat)) ∧
      (venda_create [⟨1, 7⟩, ⟨2, 7⟩] 7 ⟨2024, 3, 10⟩ (some 2)
          [some 1, some 2] [some 2, some 1] [some 10, some 5]).contas =
        [⟨12.5, ⟨2024, 3, 10⟩, none, .pendente, some (1, 2)⟩,
         ⟨12.5, ⟨2024, 4, 10⟩, none, .pendente, some (2, 2)⟩] := by
  have h := venda_create_even_division [⟨1, 7⟩, ⟨2, 7⟩] 7 ⟨2024, 3, 10⟩
    (some 2) [some 1, some 2] [some 2, some 1] [some 10, some 5]
    ⟨25, [⟨some 1, 2, 10, 20⟩, ⟨some 2, 1, 5, 5⟩]⟩ (by decide)
    (by simp [venda_create, createdSale, zipTuples, validItem, List.find?,
          saleItem_create, Sale.calcular_valor_total]
        norm_num)
  exact ⟨h.1, h.2.2⟩

/-- C8: in the sale-creation workflow a line item is created for a
submitted tuple exactly when the referenced product exists and belongs to
the owner, the quantity is a parsed integer greater than 0, and the unit
price a parsed number greater than or equal to 0 (`TupleValid`); every
failing tuple is skipped silently — the workflow still completes with no
error, its items being exactly the valid tuples in order. -/
theorem venda_create_item_validation (store : List Product) (owner : Nat)
    (anchor : Date) (parcelasRaw : Option Int)
    (produtos_ids : List (Option Nat)) (quantidades : List (Option Int))
    (precos : List (Option Rat)) (hne : produtos_ids ≠ []) :
    (venda_create store owner anchor parcelasRaw produtos_ids quantidades
        precos).error = none ∧
      (∃ v, (venda_create store owner anchor parcelasRaw produtos_ids
          quantidades precos).venda = some v ∧
        v.itens = ((zipTuples produtos_ids quantidades precos).filterMap
          (validItem store owner)).map mkSaleItem) ∧
      (∀ it, (validItem store owner it).isSome ↔
        TupleValid store owner it) := by
  rw [venda_create_ne_nil store owner anchor parcelasRaw produtos_ids
    quantidades precos hne]
  exact ⟨rfl, ⟨_, rfl, createdSale_itens store owner _⟩,
    fun it => validItem_isSome_iff store owner it⟩

theorem venda_create_item_validation_witness :
    (venda_create [⟨1, 7⟩] 7 ⟨2024, 5, 10⟩ (some 1) [some 1, some 1, some 9]
        [some 2, some 0, some 2] [some 10, some 10, some 10]).error =
      none ∧
      (∃ v, (venda_create [⟨1, 7⟩] 7 ⟨2024, 5, 10⟩ (some 1)
          [some 1, some 1, some 9] [some 2, some 0, some 2]
          [some 10, some 10, some 10]).venda = some v ∧
        v.itens = ((zipTuples [some 1, some 1, some 9]
          [some 2, some 0, some 2] [some 10, some 10, some 10]).filterMap
            (validItem [⟨1, 7⟩] 7)).map mkSaleItem) ∧
      (∀ it, (validItem [⟨1, 7⟩] 7 it).isSome ↔ TupleValid [⟨1, 7⟩] 7 it) :=
  venda_create_item_validation [⟨1, 7⟩] 7 ⟨2024, 5, 10⟩ (some 1)
    [some 1, some 1, some 9] [some 2, some 0, some 2]
    [some 10, some 10, some 10] (by decide)

/-- C10: a submitted installment count that is empty, zero or negative is
normalized to 1, so the workflow behaves exactly as with count 1 and, for
a non-empty submission on a valid anchor date, generates exactly one
receivable carrying the full sale total, due on the anchor date, with no
per-installment label. -/
theorem venda_create_parcelas_default_one (store : List Product)
    (owner : Nat) (anchor : Date) (parcelasRaw : Option Int)
    (produtos_ids : List (Option Nat)) (quantidades : List (Option Int))
    (precos : List (Option Rat)) (hv : anchor.Valid)
    (hne : produtos_ids ≠ [])
    (hp : parcelasRaw = none ∨ ∃ k : Int, parcelasRaw = some k ∧ k < 1) :
    venda_create store owner anchor parcelasRaw produtos_ids quantidades
        precos =
      venda_create store owner anchor (some 1) produtos_ids quantidades
        precos ∧
      (∃ v, (venda_create store owner anchor parcelasRaw produtos_ids
          quantidades precos).venda = some v ∧
        (venda_create store owner anchor parcelasRaw produtos_ids
            quantidades precos).contas =
          [{ valor := v.valor_total, data_vencimento := anchor,
             data_pagamento := none, status := .pendente,
             observacoes := none }]) := by
  have hep : effectiveParcelas parcelasRaw = 1 := by
    rcases hp with rfl | ⟨k, rfl, hk⟩
    · rfl
    · simp [effectiveParcelas, hk]
  have hep1 : effectiveParcelas (some 1) = 1 := by decide
  constructor
  · rw [venda_create_ne_nil store owner anchor parcelasRaw produtos_ids
      quantidades precos hne,
      venda_create_ne_nil store owner anchor (some 1) produtos_ids
      quantidades precos hne, hep, hep1]
  · rw [venda_create_ne_nil store owner anchor parcelasRaw produtos_ids
      quantidades precos hne, hep]
    refine ⟨_, rfl, ?_⟩
    simp [generatedContas, installmentDate_zero anchor hv, List.range_succ]

theorem venda_create_parcelas_default_one_witness :
    venda_create [⟨1, 7⟩] 7 ⟨2024, 5, 10⟩ (some (-2)) [some 1] [some 2]
        [some 10] =
      venda_create [⟨1, 7⟩] 7 ⟨2024, 5, 10⟩ (some 1) [some 1] [some 2]
        [some 10] ∧
      (∃ v, (venda_create [⟨1, 7⟩] 7 ⟨2024, 5, 10⟩ (some (-2)) [some 1]
          [some 2] [some 10]).venda = some v ∧
        (venda_create [⟨1, 7⟩] 7 ⟨2024, 5, 10⟩ (some (-2)) [some 1] [some 2]
            [some 10]).contas =
          [{ valor := v.valor_total, data_vencimento := ⟨2024, 5, 10⟩,
             data_pagamento := none, status := .pendente,
             observacoes := none }]) :=
  venda_create_parcelas_default_one [⟨1, 7⟩] 7 ⟨2024, 5, 10⟩ (some (-2))
    [some 1] [some 2] [some 10] (by decide) (by decide)
    (Or.inr ⟨-2, rfl, by decide⟩)

end VendasFacil
